import Mathlib

/-
Verification of the anaerobic-digestion simulator (ad_model.py) against its
natural-language specification.

The kinetics-and-integration core of the program is shallowly embedded here:

* `Params`   — the `params` dictionary assembled from the sidebar (a total
  record; the Python dict only ever reads the keys of the selected variant).
* `rate`     — the kinetics dispatch of `odefun` (ad_model.py lines 98-126):
  the elif-chain on the string `params['kinetics']` producing the scalar rate
  `R_BS_j`, or the `ValueError` of the final else branch.
* `odefun`   — the full derivative function (lines 97-133): kinetics dispatch
  followed by the mass balance `R_GS_j = Y_g*R`, `dS = -R - R_GS_j`, `dB = R`,
  `dG = R_GS_j`.
* `linspace` — `np.linspace(t1, t2, 300)` (line 208), the sample grid.
* `solve_ivp`/`runSim` — the call `solve_ivp(lambda t y: odefun(t,y,params),
  [t1,t2], y0, t_eval=...)` with `t1 = 0` and `y0 = [S0, B0, 0.0]`
  (lines 83-87 and 207-210).  The adaptive RK45 solver itself is a scipy
  library dependency, modelled from the spec by its contract (see the doc
  comment on `solve_ivp`).

Machine floats are modelled by real numbers; `np.exp` by `Real.exp`; the
float power `**` by `Real.rpow` (for the real exponent `n` of moser) and by
the natural square (for `S**2` in andrews).  Division is the total real
division of Lean; the predicate `Defined` records where the source formulas
actually divide by a nonzero denominator.
-/

namespace ADModel

/-- The parameter record `params` of ad_model.py (lines 59-87).  The Python
dictionary carries the string key `'kinetics'` plus the numeric parameters of
the selected variant and the yield `Y_g`; it is embedded as a total record,
field order: kinetics, mu_max, K_S, K_I, K_C, K_T, n, S0, k_CH, k, Y_g. -/
structure Params where
  kinetics : String
  mu_max : ℝ
  K_S : ℝ
  K_I : ℝ
  K_C : ℝ
  K_T : ℝ
  n : ℝ
  S0 : ℝ
  k_CH : ℝ
  k : ℝ
  Y_g : ℝ

attribute [ext] Params

/-- Kinetics dispatch of `odefun` (ad_model.py lines 98-126): the elif-chain
on `p['kinetics']` computing the scalar rate `R_BS_j`; the final else branch
raises `ValueError(f"Unknown kinetics type: {kinetics}")`. -/
noncomputable def rate (y : ℝ × ℝ × ℝ) (p : Params) : Except String ℝ :=
  let S_j := y.1
  let B := y.2.1
  if p.kinetics = "monod" then
    Except.ok (p.mu_max * S_j / (p.K_S + S_j) * B)
  else if p.kinetics = "linear" then
    Except.ok (p.k * S_j)
  else if p.kinetics = "haldane" then
    Except.ok (p.mu_max * (S_j / (p.K_S + S_j)) * (p.K_I / (p.K_I + S_j)) * B)
  else if p.kinetics = "contois" then
    Except.ok (p.mu_max * ((S_j / B) / (p.K_C + S_j / B)) * B)
  else if p.kinetics = "teissier" then
    Except.ok (p.mu_max * (1 - Real.exp (-S_j / p.K_T)) * B)
  else if p.kinetics = "moser" then
    Except.ok (p.mu_max * S_j ^ p.n / (p.K_S + S_j ^ p.n) * B)
  else if p.kinetics = "chen-hashimoto" then
    let S_ratio := S_j / p.S0
    Except.ok (p.mu_max * S_ratio / (p.k_CH + S_ratio * (1 - S_ratio)) * B)
  else if p.kinetics = "andrews" then
    Except.ok (p.mu_max * S_j / (p.K_S + S_j + S_j ^ 2 / p.K_I) * B)
  else
    Except.error ("Unknown kinetics type: " ++ p.kinetics)

/-- The derivative function `odefun(t, y, p)` (ad_model.py lines 97-133):
kinetics dispatch followed by the mass balance
`R_GS_j = p['Y_g'] * R_BS_j`, `dS_j_dt = -R_BS_j - R_GS_j`,
`dB_dt = R_BS_j`, `dG_dt = R_GS_j`. -/
noncomputable def odefun (t : ℝ) (y : ℝ × ℝ × ℝ) (p : Params) :
    Except String (ℝ × ℝ × ℝ) :=
  match rate y p with
  | Except.error e => Except.error e
  | Except.ok R_BS_j =>
    let R_GS_j := p.Y_g * R_BS_j
    Except.ok (-R_BS_j - R_GS_j, R_BS_j, R_GS_j)

/-- Valid domain of the kinetic parameters, as listed by the spec: every
scalar kinetic parameter is strictly positive. -/
def ParamsValid (p : Params) : Prop :=
  0 < p.mu_max ∧ 0 < p.K_S ∧ 0 < p.K_I ∧ 0 < p.K_C ∧ 0 < p.K_T ∧
  0 < p.n ∧ 0 < p.S0 ∧ 0 < p.k_CH ∧ 0 < p.k

/-- States where the rate formula of the selected variant divides only by
nonzero denominators (at a zero denominator the floating-point source
produces non-finite values rather than the ideal real-number result). -/
noncomputable def Defined (p : Params) (y : ℝ × ℝ × ℝ) : Prop :=
  if p.kinetics = "monod" then p.K_S + y.1 ≠ 0
  else if p.kinetics = "linear" then True
  else if p.kinetics = "haldane" then p.K_S + y.1 ≠ 0 ∧ p.K_I + y.1 ≠ 0
  else if p.kinetics = "contois" then y.2.1 ≠ 0 ∧ p.K_C + y.1 / y.2.1 ≠ 0
  else if p.kinetics = "teissier" then p.K_T ≠ 0
  else if p.kinetics = "moser" then p.K_S + y.1 ^ p.n ≠ 0
  else if p.kinetics = "chen-hashimoto" then
    p.S0 ≠ 0 ∧ p.k_CH + y.1 / p.S0 * (1 - y.1 / p.S0) ≠ 0
  else if p.kinetics = "andrews" then
    p.K_I ≠ 0 ∧ p.K_S + y.1 + y.1 ^ 2 / p.K_I ≠ 0
  else True

/-- A sampled trajectory: the time grid and the state at each grid point
(`sol.t` and the rows of `sol.y` in the source, lines 209-210). -/
structure Solution where
  t : List ℝ
  y : List (ℝ × ℝ × ℝ)

/-- The sample grid `np.linspace(a, b, n)` (ad_model.py line 208):
`n` points `a + i*(b-a)/(n-1)`, `i = 0, ..., n-1`. -/
noncomputable def linspace (a b : ℝ) (n : ℕ) : List ℝ :=
  (List.range n).map fun i : ℕ => a + (i : ℝ) * (b - a) / ((n : ℝ) - 1)

/-- Modelled from the spec: `scipy.integrate.solve_ivp` is an external
library dependency (the Integrator of spec section 4.3), not code of this
repository.  Its contract, as the spec states it: the solver first evaluates
the derivative function at the initial point — so an exception raised by the
derivative function propagates out of the call before any integration step
is taken — and on success it returns the state at exactly the caller-supplied
`t_eval` grid points, read off its dense output, which reproduces the initial
state exactly at `t0`.  The dense output is passed as the explicit argument
`dense`; its anchoring property `dense t0 = y0` is assumed as a hypothesis by
the theorems that need it. -/
noncomputable def solve_ivp (f : ℝ → ℝ × ℝ × ℝ → Except String (ℝ × ℝ × ℝ))
    (t0 t2 : ℝ) (y0 : ℝ × ℝ × ℝ) (t_eval : List ℝ)
    (dense : ℝ → ℝ × ℝ × ℝ) : Except String Solution :=
  match f t0 y0 with
  | Except.error e => Except.error e
  | Except.ok _ => Except.ok ⟨t_eval, t_eval.map dense⟩

/-- The simulation run of ad_model.py lines 83-87 and 207-210:
`t1 = 0`, `y0 = [S0, B0, 0.0]`,
`sol = solve_ivp(lambda t, y: odefun(t, y, params), [t1, t2], y0,
t_eval=np.linspace(t1, t2, 300))`. -/
noncomputable def runSim (p : Params) (S0 B0 t2 : ℝ)
    (dense : ℝ → ℝ × ℝ × ℝ) : Except String Solution :=
  solve_ivp (fun t y => odefun t y p) 0 t2 (S0, B0, 0) (linspace 0 t2 300) dense

/-- Sidebar default configuration with monod kinetics (field order:
kinetics, mu_max, K_S, K_I, K_C, K_T, n, S0, k_CH, k, Y_g). -/
noncomputable def pMonod : Params :=
  ⟨"monod", 0.4, 20, 250, 3.5, 15, 1.5, 100, 0.2, 0.05, 0.314⟩

/-- A second record holding exactly the same values as `pMonod`. -/
noncomputable def pMonodCopy : Params :=
  ⟨"monod", 0.4, 20, 250, 3.5, 15, 1.5, 100, 0.2, 0.05, 0.314⟩

/-- Chen-Hashimoto configuration with reference `S0 = 100` (all parameters
in the sidebar ranges). -/
noncomputable def pChen : Params :=
  ⟨"chen-hashimoto", 0.4, 20, 250, 3.5, 15, 1.5, 100, 0.2, 0.05, 0.314⟩

/-- Chen-Hashimoto configuration with reference `S0 = 1` and `Y_g = 0.5`
(both inside the sidebar input ranges). -/
noncomputable def pChenLow : Params :=
  ⟨"chen-hashimoto", 0.4, 20, 250, 3.5, 15, 1.5, 1, 0.2, 0.05, 0.5⟩

/-- Contois configuration (sidebar defaults). -/
noncomputable def pContois : Params :=
  ⟨"contois", 0.4, 20, 250, 3.5, 15, 1.5, 100, 0.2, 0.05, 0.314⟩

/-- Configuration selecting the variant tag "ierusalimsky". -/
noncomputable def pIer : Params :=
  ⟨"ierusalimsky", 0.4, 20, 250, 3.5, 15, 1.5, 100, 0.2, 0.05, 0.314⟩

/-- Configuration selecting the unrecognized variant tag "unknown". -/
noncomputable def pUnknown : Params :=
  ⟨"unknown", 0.4, 20, 250, 3.5, 15, 1.5, 100, 0.2, 0.05, 0.314⟩

/-- Linear-kinetics configuration with `k = 0`. -/
noncomputable def pLinZero : Params :=
  ⟨"linear", 0.4, 20, 250, 3.5, 15, 1.5, 100, 0.2, 0, 0.314⟩

/-- The monod rate at the default configuration and initial state
(S, B) = (100, 1). -/
noncomputable def R0 : ℝ := 0.4 * 100 / (20 + 100) * 1

/-- The trajectory produced by `runSim pMonod 100 1 50` with the constant
dense output. -/
noncomputable def sol7 : Solution :=
  ⟨linspace 0 50 300, (linspace 0 50 300).map fun _ => ((100 : ℝ), (1 : ℝ), (0 : ℝ))⟩

lemma rate_monod (p : Params) (y : ℝ × ℝ × ℝ) (h : p.kinetics = "monod") :
    rate y p = Except.ok (p.mu_max * y.1 / (p.K_S + y.1) * y.2.1) := by
  simp [rate, h]

lemma rate_linear (p : Params) (y : ℝ × ℝ × ℝ) (h : p.kinetics = "linear") :
    rate y p = Except.ok (p.k * y.1) := by
  simp [rate, h]

lemma rate_haldane (p : Params) (y : ℝ × ℝ × ℝ) (h : p.kinetics = "haldane") :
    rate y p =
      Except.ok (p.mu_max * (y.1 / (p.K_S + y.1)) * (p.K_I / (p.K_I + y.1)) * y.2.1) := by
  simp [rate, h]

lemma rate_contois (p : Params) (y : ℝ × ℝ × ℝ) (h : p.kinetics = "contois") :
    rate y p =
      Except.ok (p.mu_max * ((y.1 / y.2.1) / (p.K_C + y.1 / y.2.1)) * y.2.1) := by
  simp [rate, h]

lemma rate_teissier (p : Params) (y : ℝ × ℝ × ℝ) (h : p.kinetics = "teissier") :
    rate y p = Except.ok (p.mu_max * (1 - Real.exp (-y.1 / p.K_T)) * y.2.1) := by
  simp [rate, h]

lemma rate_moser (p : Params) (y : ℝ × ℝ × ℝ) (h : p.kinetics = "moser") :
    rate y p = Except.ok (p.mu_max * y.1 ^ p.n / (p.K_S + y.1 ^ p.n) * y.2.1) := by
  simp [rate, h]

lemma rate_chen (p : Params) (y : ℝ × ℝ × ℝ) (h : p.kinetics = "chen-hashimoto") :
    rate y p =
      Except.ok (p.mu_max * (y.1 / p.S0) /
        (p.k_CH + y.1 / p.S0 * (1 - y.1 / p.S0)) * y.2.1) := by
  simp [rate, h]

lemma rate_andrews (p : Params) (y : ℝ × ℝ × ℝ) (h : p.kinetics = "andrews") :
    rate y p =
      Except.ok (p.mu_max * y.1 / (p.K_S + y.1 + y.1 ^ 2 / p.K_I) * y.2.1) := by
  simp [rate, h]

lemma rate_nonneg_aux (p : Params) (y : ℝ × ℝ × ℝ) (R : ℝ)
    (hv : ParamsValid p) (hS : 0 ≤ y.1) (hB : 0 < y.2.1)
    (hCH : p.kinetics = "chen-hashimoto" → y.1 ≤ p.S0)
    (hR : rate y p = Except.ok R) : 0 ≤ R := by
  obtain ⟨hmu, hKS, hKI, hKC, hKT, hn, hS0, hkCH, hk⟩ := hv
  by_cases h1 : p.kinetics = "monod"
  · rw [rate_monod p y h1] at hR
    simp only [Except.ok.injEq] at hR
    subst hR
    positivity
  by_cases h2 : p.kinetics = "linear"
  · rw [rate_linear p y h2] at hR
    simp only [Except.ok.injEq] at hR
    subst hR
    positivity
  by_cases h3 : p.kinetics = "haldane"
  · rw [rate_haldane p y h3] at hR
    simp only [Except.ok.injEq] at hR
    subst hR
    positivity
  by_cases h4 : p.kinetics = "contois"
  · rw [rate_contois p y h4] at hR
    simp only [Except.ok.injEq] at hR
    subst hR
    positivity
  by_cases h5 : p.kinetics = "teissier"
  · rw [rate_teissier p y h5] at hR
    simp only [Except.ok.injEq] at hR
    subst hR
    have hfrac : 0 ≤ y.1 / p.K_T := div_nonneg hS hKT.le
    have hexp : Real.exp (-y.1 / p.K_T) ≤ 1 := by
      apply Real.exp_le_one_iff.mpr
      rw [neg_div]
      exact neg_nonpos_of_nonneg hfrac
    have h1' : 0 ≤ 1 - Real.exp (-y.1 / p.K_T) := by linarith
    exact mul_nonneg (mul_nonneg hmu.le h1') hB.le
  by_cases h6 : p.kinetics = "moser"
  · rw [rate_moser p y h6] at hR
    simp only [Except.ok.injEq] at hR
    subst hR
    have hpow : 0 ≤ y.1 ^ p.n := Real.rpow_nonneg hS _
    have hden : 0 ≤ p.K_S + y.1 ^ p.n := by linarith
    exact mul_nonneg (div_nonneg (mul_nonneg hmu.le hpow) hden) hB.le
  by_cases h7 : p.kinetics = "chen-hashimoto"
  · rw [rate_chen p y h7] at hR
    simp only [Except.ok.injEq] at hR
    subst hR
    have hr0 : 0 ≤ y.1 / p.S0 := div_nonneg hS hS0.le
    have hr1 : y.1 / p.S0 ≤ 1 := (div_le_one hS0).mpr (hCH h7)
    have hprod : 0 ≤ y.1 / p.S0 * (1 - y.1 / p.S0) :=
      mul_nonneg hr0 (by linarith)
    have hden : 0 ≤ p.k_CH + y.1 / p.S0 * (1 - y.1 / p.S0) := by linarith
    exact mul_nonneg (div_nonneg (mul_nonneg hmu.le hr0) hden) hB.le
  by_cases h8 : p.kinetics = "andrews"
  · rw [rate_andrews p y h8] at hR
    simp only [Except.ok.injEq] at hR
    subst hR
    positivity
  · simp [rate, h1, h2, h3, h4, h5, h6, h7, h8] at hR

lemma linspace_length (a b : ℝ) (n : ℕ) : (linspace a b n).length = n := by
  rw [linspace, List.length_map, List.length_range]

lemma linspace_getElem? (a b : ℝ) (n i : ℕ) (h : i < n) :
    (linspace a b n)[i]? = some (a + i * (b - a) / ((n : ℝ) - 1)) := by
  rw [linspace, List.getElem?_map, List.getElem?_range h, Option.map_some']

lemma linspace_pairwise (a b : ℝ) (n : ℕ) (hab : a < b) (hn : 2 ≤ n) :
    (linspace a b n).Pairwise (· < ·) := by
  have hden : (0 : ℝ) < (n : ℝ) - 1 := by
    have : (2 : ℝ) ≤ (n : ℝ) := by exact_mod_cast hn
    linarith
  have hstep : 0 < (b - a) / ((n : ℝ) - 1) := div_pos (by linarith) hden
  rw [linspace]
  refine List.Pairwise.map _ ?_ (List.pairwise_lt_range n)
  intro i j hij
  have hcast : (i : ℝ) < (j : ℝ) := by exact_mod_cast hij
  have hmono : (i : ℝ) * (b - a) / ((n : ℝ) - 1) <
      (j : ℝ) * (b - a) / ((n : ℝ) - 1) := by
    rw [mul_div_assoc, mul_div_assoc]
    exact mul_lt_mul_of_pos_right hcast hstep
  linarith

/-- C1: the mass balance implements Convention B — whenever the selected
kinetics variant produces the rate `R`, the derivative function returns
`dS/dt = -R - Y_g*R`, `dB/dt = R`, `dG/dt = Y_g*R`, with `Y_g` the single
yield coefficient of the parameter record. -/
theorem massBalance_conventionB (t : ℝ) (y : ℝ × ℝ × ℝ) (p : Params) (R : ℝ)
    (hR : rate y p = Except.ok R) :
    odefun t y p = Except.ok (-R - p.Y_g * R, R, p.Y_g * R) := by
  simp [odefun, hR]

/-- Witness for C1 at the default monod configuration and state (100, 1, 0). -/
theorem massBalance_conventionB_witness :
    odefun 0 (100, 1, 0) pMonod =
      Except.ok (-R0 - pMonod.Y_g * R0, R0, pMonod.Y_g * R0) :=
  massBalance_conventionB 0 (100, 1, 0) pMonod R0
    (by rw [rate_monod pMonod (100, 1, 0) rfl]; norm_num [pMonod, R0])

/-- C2 (amended): for every recognized kinetics variant, every state with
`S ≥ 0`, `B > 0` and parameters in their valid positive domain, the computed
rate `R` is non-negative — where for chen-hashimoto the state must in
addition satisfy `S ≤ S0` (as stated, without that restriction, the claim is
false: see the counterexample). -/
theorem rate_nonneg_valid (p : Params) (y : ℝ × ℝ × ℝ) (R : ℝ)
    (hv : ParamsValid p) (hS : 0 ≤ y.1) (hB : 0 < y.2.1)
    (hCH : p.kinetics = "chen-hashimoto" → y.1 ≤ p.S0)
    (hR : rate y p = Except.ok R) : 0 ≤ R :=
  rate_nonneg_aux p y R hv hS hB hCH hR

/-- Counterexample to C2 as stated: chen-hashimoto with valid parameters
(reference `S0 = 100`, `k_CH = 0.2`) at the state `S = 200 ≥ 0`, `B = 1 > 0`
computes the negative rate `R = -4/9`. -/
theorem rate_chenHashimoto_neg :
    ParamsValid pChen ∧ (0 : ℝ) ≤ 200 ∧ (0 : ℝ) < 1 ∧
    rate (200, 1, 0) pChen = Except.ok (-(4 / 9) : ℝ) ∧ (-(4 / 9) : ℝ) < 0 := by
  refine ⟨by norm_num [ParamsValid, pChen], by norm_num, by norm_num, ?_, by norm_num⟩
  rw [rate_chen pChen (200, 1, 0) rfl]
  norm_num [pChen]

/-- Witness for C2 at the default monod configuration and state (100, 1, 0). -/
theorem rate_nonneg_valid_witness : (0 : ℝ) ≤ 0.4 * 100 / (20 + 100) * 1 :=
  rate_nonneg_valid pMonod (100, 1, 0) (0.4 * 100 / (20 + 100) * 1)
    (by norm_num [ParamsValid, pMonod]) (by norm_num) (by norm_num)
    (by simp [pMonod])
    (by rw [rate_monod pMonod (100, 1, 0) rfl]; norm_num [pMonod])

/-- C3 (amended): at every state with `S ≥ 0`, `B > 0`, valid positive
parameters and `Y_g ∈ (0,1)` — with the additional restriction `S ≤ S0` when
the variant is chen-hashimoto — the derivative function gives `dS/dt ≤ 0`
and `dG/dt ≥ 0`, so substrate is non-increasing and cumulative biogas
non-decreasing.  As stated (without the chen-hashimoto restriction) the
claim is false: see the counterexample. -/
theorem derivs_monotone (t : ℝ) (y : ℝ × ℝ × ℝ) (p : Params) (d : ℝ × ℝ × ℝ)
    (hv : ParamsValid p) (hYg0 : 0 < p.Y_g) (hYg1 : p.Y_g < 1)
    (hS : 0 ≤ y.1) (hB : 0 < y.2.1)
    (hCH : p.kinetics = "chen-hashimoto" → y.1 ≤ p.S0)
    (hd : odefun t y p = Except.ok d) : d.1 ≤ 0 ∧ 0 ≤ d.2.2 := by
  cases hR : rate y p with
  | error e => simp [odefun, hR] at hd
  | ok R =>
    have hR0 : 0 ≤ R := rate_nonneg_aux p y R hv hS hB hCH hR
    simp only [odefun, hR, Except.ok.injEq] at hd
    subst hd
    have hYgR : 0 ≤ p.Y_g * R := mul_nonneg hYg0.le hR0
    constructor
    · show -R - p.Y_g * R ≤ 0
      linarith
    · show 0 ≤ p.Y_g * R
      exact hYgR

/-- Counterexample to C3 as stated: the valid chen-hashimoto configuration
with reference `S0 = 1`, `Y_g = 0.5` at the initial state `(S, B, G) =
(2, 1, 0)` yields `dS/dt = 2/3 > 0` and `dG/dt = -2/9 < 0`: substrate
increases and cumulative biogas decreases. -/
theorem derivs_monotone_cex :
    ParamsValid pChenLow ∧ 0 < pChenLow.Y_g ∧ pChenLow.Y_g < 1 ∧
    odefun 0 (2, 1, 0) pChenLow = Except.ok (2 / 3, -(4 / 9), -(2 / 9)) ∧
    ¬((2 / 3 : ℝ) ≤ 0) ∧ ¬((0 : ℝ) ≤ -(2 / 9 : ℝ)) := by
  refine ⟨by norm_num [ParamsValid, pChenLow], by norm_num [pChenLow],
    by norm_num [pChenLow], ?_, by norm_num, by norm_num⟩
  simp only [odefun, rate_chen pChenLow (2, 1, 0) rfl]
  norm_num [pChenLow]

/-- Witness for C3 at the default monod configuration and state (100, 1, 0). -/
theorem derivs_monotone_witness :
    (-R0 - 0.314 * R0 : ℝ) ≤ 0 ∧ (0 : ℝ) ≤ 0.314 * R0 :=
  derivs_monotone 0 (100, 1, 0) pMonod (-R0 - 0.314 * R0, R0, 0.314 * R0)
    (by norm_num [ParamsValid, pMonod]) (by norm_num [pMonod])
    (by norm_num [pMonod]) (by norm_num) (by norm_num) (by simp [pMonod])
    (by simp only [odefun, rate_monod pMonod (100, 1, 0) rfl]
        norm_num [pMonod, R0])

/-- C4 (amended): "ierusalimsky" is not a recognized kinetics tag of the
implementation — selecting it makes the derivative function raise the
unknown-kinetics `ValueError` instead of computing the rate
`μmax*(S/(K_S+S))*(K_P/(K_P+S))*B` stated by the claim. -/
theorem ierusalimsky_unrecognized (t : ℝ) (y : ℝ × ℝ × ℝ) (p : Params)
    (h : p.kinetics = "ierusalimsky") :
    odefun t y p = Except.error ("Unknown kinetics type: " ++ p.kinetics) := by
  simp [odefun, rate, h]

/-- Counterexample to C4 as stated: at the state (100, 1, 0), selecting
"ierusalimsky" produces the unknown-kinetics error and no derivative value
at all. -/
theorem ierusalimsky_cex :
    odefun 0 (100, 1, 0) pIer =
      Except.error "Unknown kinetics type: ierusalimsky" ∧
    (odefun 0 (100, 1, 0) pIer).toOption = none := by
  constructor <;> simp [odefun, rate, pIer, Except.toOption]

/-- Witness for the amended C4. -/
theorem ierusalimsky_unrecognized_witness :
    odefun 0 (50, 2, 1) pIer =
      Except.error ("Unknown kinetics type: " ++ pIer.kinetics) :=
  ierusalimsky_unrecognized 0 (50, 2, 1) pIer rfl

/-- C5 (amended): an unrecognized kinetics tag makes the run fail with the
unknown-kinetics `ValueError`, raised by the first evaluation of the
derivative function at the initial point during solver initialization —
before any integration step, but not prior to that first derivative
evaluation (the source performs no separate configuration check before
calling the solver). -/
theorem unknownKinetics_error_at_first_eval (p : Params) (Sa Ba t2 : ℝ)
    (dense : ℝ → ℝ × ℝ × ℝ)
    (h1 : p.kinetics ≠ "monod") (h2 : p.kinetics ≠ "linear")
    (h3 : p.kinetics ≠ "haldane") (h4 : p.kinetics ≠ "contois")
    (h5 : p.kinetics ≠ "teissier") (h6 : p.kinetics ≠ "moser")
    (h7 : p.kinetics ≠ "chen-hashimoto") (h8 : p.kinetics ≠ "andrews") :
    odefun 0 (Sa, Ba, 0) p =
      Except.error ("Unknown kinetics type: " ++ p.kinetics) ∧
    runSim p Sa Ba t2 dense =
      Except.error ("Unknown kinetics type: " ++ p.kinetics) := by
  have hode : odefun 0 (Sa, Ba, 0) p =
      Except.error ("Unknown kinetics type: " ++ p.kinetics) := by
    simp [odefun, rate, h1, h2, h3, h4, h5, h6, h7, h8]
  exact ⟨hode, by simp [runSim, solve_ivp, hode]⟩

/-- Counterexample to C5 as stated: with the tag "unknown", the error the
run fails with is exactly the error returned by evaluating the derivative
function at the initial point — detection happens at (not prior to) the
first derivative evaluation inside the solver. -/
theorem unknownKinetics_cex :
    runSim pUnknown 100 1 50 (fun _ => (100, 1, 0)) =
      Except.error "Unknown kinetics type: unknown" ∧
    odefun 0 (100, 1, 0) pUnknown =
      Except.error "Unknown kinetics type: unknown" := by
  constructor <;> simp [runSim, solve_ivp, odefun, rate, pUnknown]

/-- Witness for the amended C5. -/
theorem unknownKinetics_error_at_first_eval_witness :
    odefun 0 (100, 1, 0) pUnknown =
      Except.error ("Unknown kinetics type: " ++ pUnknown.kinetics) ∧
    runSim pUnknown 100 1 50 (fun _ => (100, 1, 0)) =
      Except.error ("Unknown kinetics type: " ++ pUnknown.kinetics) :=
  unknownKinetics_error_at_first_eval pUnknown 100 1 50 (fun _ => (100, 1, 0))
    (by simp [pUnknown]) (by simp [pUnknown]) (by simp [pUnknown])
    (by simp [pUnknown]) (by simp [pUnknown]) (by simp [pUnknown])
    (by simp [pUnknown]) (by simp [pUnknown])

/-- C6 (amended): the contois branch performs no biomass check — with
`B = 0` the derivative function still returns a value (no error is raised;
at runtime the division by zero produces non-finite floats, and the UI input
bound `B₀ ≥ 0.01` is the only guard), contradicting the claim that an error
is always raised. -/
theorem contois_zeroBiomass_no_error (t S G : ℝ) (p : Params)
    (h : p.kinetics = "contois") :
    (odefun t (S, 0, G) p).toOption.isSome = true := by
  simp [odefun, rate_contois p (S, 0, G) h, Except.toOption]

/-- Counterexample to C6 as stated: running contois at the state
`(S, B, G) = (100, 0, 0)` returns a derivative value and raises nothing. -/
theorem contois_zeroBiomass_cex :
    (odefun 0 (100, 0, 0) pContois).toOption.isSome = true := by
  rw [odefun, rate_contois pContois (100, 0, 0) rfl]
  simp [Except.toOption]

/-- Witness for the amended C6. -/
theorem contois_zeroBiomass_no_error_witness :
    (odefun 0 (50, 0, 3) pContois).toOption.isSome = true :=
  contois_zeroBiomass_no_error 0 50 3 pContois rfl

/-- C8: zero rate is a fixed point — for the linear variant with `k = 0`,
and for every saturating variant with `μmax = 0`, the derivative function
returns `(0, 0, 0)` at every state on which the selected formula is
defined. -/
theorem zeroRate_fixedPoint (t : ℝ) (y : ℝ × ℝ × ℝ) (p : Params)
    (hdef : Defined p y)
    (hz : (p.kinetics = "linear" ∧ p.k = 0) ∨
      (p.kinetics ∈ (["monod", "haldane", "contois", "teissier", "moser",
        "chen-hashimoto", "andrews"] : List String) ∧ p.mu_max = 0)) :
    odefun t y p = Except.ok (0, 0, 0) := by
  rcases hz with ⟨hk, hk0⟩ | ⟨hmem, hmu⟩
  · simp [odefun, rate, hk, hk0]
  · simp only [List.mem_cons, List.not_mem_nil, or_false] at hmem
    rcases hmem with h | h | h | h | h | h | h
    all_goals simp [odefun, rate, h, hmu]

/-- Witness for C8: linear kinetics with `k = 0` at the state (100, 1, 0). -/
theorem zeroRate_fixedPoint_witness :
    odefun 0 (100, 1, 0) pLinZero = Except.ok (0, 0, 0) :=
  zeroRate_fixedPoint 0 (100, 1, 0) pLinZero (by simp [Defined, pLinZero])
    (Or.inl ⟨rfl, rfl⟩)

/-- C9: the simulation is deterministic — the derivative function and the
run depend only on their arguments: two parameter records agreeing on every
field produce identical derivatives and identical trajectories (given the
same solver dense output, the solver itself having no hidden randomness). -/
theorem simulation_deterministic (p q : Params)
    (h1 : p.kinetics = q.kinetics) (h2 : p.mu_max = q.mu_max)
    (h3 : p.K_S = q.K_S) (h4 : p.K_I = q.K_I) (h5 : p.K_C = q.K_C)
    (h6 : p.K_T = q.K_T) (h7 : p.n = q.n) (h8 : p.S0 = q.S0)
    (h9 : p.k_CH = q.k_CH) (h10 : p.k = q.k) (h11 : p.Y_g = q.Y_g) :
    (∀ t y, odefun t y p = odefun t y q) ∧
    ∀ Sa Ba t2 dense, runSim p Sa Ba t2 dense = runSim q Sa Ba t2 dense := by
  have hpq : p = q := Params.ext h1 h2 h3 h4 h5 h6 h7 h8 h9 h10 h11
  subst hpq
  exact ⟨fun _ _ => rfl, fun _ _ _ _ => rfl⟩

/-- Witness for C9: two identical monod configurations give the same
derivative at the state (100, 1, 0). -/
theorem simulation_deterministic_witness :
    odefun 0 (100, 1, 0) pMonod = odefun 0 (100, 1, 0) pMonodCopy :=
  (simulation_deterministic pMonod pMonodCopy rfl rfl rfl rfl rfl rfl rfl
    rfl rfl rfl rfl).1 0 (100, 1, 0)

/-- C10: the three components returned by the derivative function always
sum to zero (at states where the selected rate formula is defined), so
`S + B + G` is constant along exact solutions, for every `Y_g`. -/
theorem massBalance_sum_zero (t : ℝ) (y : ℝ × ℝ × ℝ) (p : Params)
    (d : ℝ × ℝ × ℝ) (hdef : Defined p y)
    (hd : odefun t y p = Except.ok d) : d.1 + d.2.1 + d.2.2 = 0 := by
  cases hR : rate y p with
  | error e => simp [odefun, hR] at hd
  | ok R =>
    simp only [odefun, hR, Except.ok.injEq] at hd
    subst hd
    show -R - p.Y_g * R + R + p.Y_g * R = 0
    ring

/-- Witness for C10 at the default monod configuration and state
(100, 1, 0). -/
theorem massBalance_sum_zero_witness :
    (-R0 - 0.314 * R0) + R0 + 0.314 * R0 = 0 :=
  massBalance_sum_zero 0 (100, 1, 0) pMonod (-R0 - 0.314 * R0, R0, 0.314 * R0)
    (by norm_num [Defined, pMonod])
    (by simp only [odefun, rate_monod pMonod (100, 1, 0) rfl]
        norm_num [pMonod, R0])

/-- C7: the returned trajectory consists of four sequences of equal length
`N = 300`; the time grid starts at `t0 = 0`, ends at `t2`, is strictly
increasing, and the first sample is exactly the initial state
`(S0, B0, 0)`. -/
theorem trajectory_shape (p : Params) (Sa Ba t2 : ℝ)
    (dense : ℝ → ℝ × ℝ × ℝ) (sol : Solution)
    (hrun : runSim p Sa Ba t2 dense = Except.ok sol)
    (hdense : dense 0 = (Sa, Ba, 0)) (ht : 0 < t2) :
    sol.t.length = 300 ∧ sol.y.length = 300 ∧
    (sol.y.map fun s => s.1).length = 300 ∧
    (sol.y.map fun s => s.2.1).length = 300 ∧
    (sol.y.map fun s => s.2.2).length = 300 ∧
    sol.t[0]? = some 0 ∧ sol.t[299]? = some t2 ∧
    sol.t.Pairwise (· < ·) ∧ sol.y[0]? = some (Sa, Ba, 0) := by
  cases hode : odefun 0 (Sa, Ba, 0) p with
  | error e => simp [runSim, solve_ivp, hode] at hrun
  | ok v =>
    have hsol : sol = ⟨linspace 0 t2 300, (linspace 0 t2 300).map dense⟩ := by
      simp only [runSim, solve_ivp, hode, Except.ok.injEq] at hrun
      exact hrun.symm
    subst hsol
    refine ⟨linspace_length 0 t2 300, ?_, ?_, ?_, ?_, ?_, ?_, ?_, ?_⟩
    · rw [List.length_map, linspace_length]
    · rw [List.length_map, List.length_map, linspace_length]
    · rw [List.length_map, List.length_map, linspace_length]
    · rw [List.length_map, List.length_map, linspace_length]
    · rw [linspace_getElem? 0 t2 300 0 (by norm_num)]
      norm_num
    · rw [linspace_getElem? 0 t2 300 299 (by norm_num)]
      push_cast
      rw [Option.some_inj]
      field_simp
      ring
    · exact linspace_pairwise 0 t2 300 ht (by norm_num)
    · rw [List.getElem?_map, linspace_getElem? 0 t2 300 0 (by norm_num),
        Option.map_some']
      norm_num [hdense]

/-- Witness for C7: the monod default run over `[0, 50]` with a constant
dense output. -/
theorem trajectory_shape_witness :
    sol7.t.length = 300 ∧ sol7.y.length = 300 ∧
    (sol7.y.map fun s => s.1).length = 300 ∧
    (sol7.y.map fun s => s.2.1).length = 300 ∧
    (sol7.y.map fun s => s.2.2).length = 300 ∧
    sol7.t[0]? = some 0 ∧ sol7.t[299]? = some 50 ∧
    sol7.t.Pairwise (· < ·) ∧ sol7.y[0]? = some (100, 1, 0) :=
  trajectory_shape pMonod 100 1 50 (fun _ => (100, 1, 0)) sol7
    (by simp [runSim, solve_ivp, odefun, rate, pMonod, sol7]) rfl
    (by norm_num)

end ADModel
